import Mathlib

/-!
Shallow embedding of the camp-participator repository
(scripts/export_public.py and scripts/fetch_icons.py) together with
theorems checking the natural-language specification against it.

Python strings are modelled as Lean `String`; the Python string methods
used by the scripts (`strip`, `lower`, `startswith`, `split`, `replace`)
are modelled as explicit functions over the character list.  CSV rows
(dicts produced by `csv.DictReader`) are modelled as association lists
from column name to value.  Filesystem and network effects are modelled
by explicit oracles passed as parameters.
-/

/-- Python `str.isspace` for the characters `str.strip()` removes
(ASCII whitespace suffices for the data handled by the scripts). -/
def pyIsSpace (c : Char) : Bool :=
  c == ' ' || c == '\t' || c == '\n' || c == '\r' || c == '\x0b' || c == '\x0c'

/-- Python `s.strip()` on the character list: drop whitespace at both ends. -/
def pyStripList (cs : List Char) : List Char :=
  ((cs.dropWhile pyIsSpace).reverse.dropWhile pyIsSpace).reverse

/-- Python `s.strip()`. -/
def pyStrip (s : String) : String :=
  String.mk (pyStripList s.data)

/-- Python `s.strip(c)` for a single strip character `c`. -/
def stripCharList (c : Char) (cs : List Char) : List Char :=
  ((cs.dropWhile (· == c)).reverse.dropWhile (· == c)).reverse

/-- Python `s.startswith(pre)`. -/
def pyStartswith (s pre : String) : Bool :=
  pre.data.isPrefixOf s.data

/-- Python `s.lower()` (ASCII case folding; the tokens involved are ASCII
or case-free). -/
def pyLower (s : String) : String :=
  String.mk (s.data.map Char.toLower)

/-- Python `s.split(sep)` for a one-character separator, on character
lists.  Mirrors Python: the result is never empty, and splitting the
empty string yields one empty field. -/
def splitOnChar (sep : Char) : List Char → List (List Char)
  | [] => [[]]
  | c :: cs =>
    match splitOnChar sep cs with
    | [] => [[c]]
    | h :: t => if c == sep then [] :: h :: t else (c :: h) :: t

/-- A roster row: mapping from column name to string value, as produced
by `csv.DictReader`. -/
abbrev Row := List (String × String)

/-- Python `row.get(k)`. -/
def rowGet (r : Row) (k : String) : Option String :=
  (r.find? (fun p => p.1 == k)).map (·.2)

/-- Python `row.get(k, "")`, also the value of `row.get(k) or ""` for
string-valued rows. -/
def rowGetD (r : Row) (k : String) : String :=
  (rowGet r k).getD ""

/-- The publish-flag column name (`公開可否`, "may publish"). -/
def flagCol : String := "公開可否"

/-- The accepted truthy tokens of `truthy` in export_public.py;
`公開` is the Japanese word for "public". -/
def acceptedTokens : List String := ["true", "1", "yes", "y", "公開", "ok"]

/-- `truthy` from export_public.py: `None` is falsy, otherwise strip,
lowercase and test membership in the fixed token set. -/
def truthy : Option String → Bool
  | none => false
  | some s => acceptedTokens.contains (pyLower (pyStrip s))

/-- The per-row publish filter applied in `main` of export_public.py:
`truthy(r.get("公開可否", ""))`. -/
def pubFilter (r : Row) : Bool :=
  truthy (some (rowGetD r flagCol))

/-- Input path constant of export_public.py. -/
def IN_CSV : String := "data/participants_template.csv"

/-- Input path constant of fetch_icons.py. -/
def CSV_PATH : String := "data/participants_template.csv"

/-- Cache directory constant of fetch_icons.py. -/
def OUT_DIR : String := "assets/icons"

/-- The CSV artifact: header line and data rows, each row a list of cells
in header order. -/
structure CsvOut where
  header : List String
  rows : List (List String)
deriving Repr, DecidableEq

/-- One CSV cell as `csv.DictWriter` emits it: the row's value for the
field, or the empty restval when absent. -/
def csvCell (r : Row) (k : String) : String := rowGetD r k

/-- `write_csv` from export_public.py: header is `fieldnames`, one data
line per row, cells in `fieldnames` order. -/
def write_csv (rows : List Row) (fieldnames : List String) : CsvOut :=
  ⟨fieldnames, rows.map (fun r => fieldnames.map (csvCell r))⟩

/-- The Markdown table: header cells and data rows. -/
structure MdOut where
  header : List String
  rows : List (List String)
deriving Repr, DecidableEq

/-- Python `v.replace("\n", " ")` as applied to Markdown cells. -/
def replaceNlSpace (s : String) : String :=
  String.mk (s.data.map (fun c => if c == '\n' then ' ' else c))

/-- `write_md` from export_public.py: drop the publish-flag column from
the fields, then emit each row's values with newlines replaced by
spaces. -/
def write_md (rows : List Row) (fieldnames : List String) : MdOut :=
  let md_fields := fieldnames.filter (fun fn => fn ≠ flagCol)
  ⟨md_fields,
   rows.map (fun r => md_fields.map (fun k => replaceNlSpace (rowGetD r k)))⟩

/-- What a successful run of export_public.py `main` produces: the CSV
artifact, the Markdown artifact and the published row subset. -/
structure ExportOut where
  csv : CsvOut
  md : MdOut
  pubRows : List Row
deriving Repr, DecidableEq

/-- `main` of export_public.py up to artifact construction: abort when
the input file is absent or the publish-flag column is missing from the
header, otherwise filter and emit.  `inputExists` models
`os.path.exists(IN_CSV)`. -/
def exportMain (inputExists : Bool) (fieldnames : List String)
    (allRows : List Row) : Except String ExportOut :=
  if !inputExists then Except.error ("not found: " ++ IN_CSV)
  else if !(fieldnames.contains flagCol) then
    Except.error "CSVに 公開可否 列がありません"
  else
    let pub := allRows.filter pubFilter
    Except.ok ⟨write_csv pub fieldnames, write_md pub fieldnames, pub⟩

/-- Scheme characters accepted by `urllib.parse.urlsplit` after the
leading letter. -/
def isSchemeChar (c : Char) : Bool :=
  c.isAlpha || c.isDigit || c == '+' || c == '-' || c == '.'

/-- A valid URL scheme for `urlsplit`: a letter followed by scheme
characters. -/
def isValidScheme : List Char → Bool
  | [] => false
  | c :: rest => c.isAlpha && rest.all isSchemeChar

/-- The `path` component of `urllib.parse.urlsplit`, on character lists:
drop the fragment, split off a valid scheme, skip `//netloc` when
present, and drop the query. -/
def urlsplitPathList (u : List Char) : List Char :=
  let noFrag := (splitOnChar '#' u).headD []
  let beforeColon := noFrag.takeWhile (fun c => !(c == ':'))
  let fromColon := noFrag.dropWhile (fun c => !(c == ':'))
  let rest :=
    if !fromColon.isEmpty && isValidScheme beforeColon then fromColon.tail
    else noFrag
  let rest2 :=
    if ['/', '/'].isPrefixOf rest then
      (rest.drop 2).dropWhile (fun c => !(c == '/' || c == '?'))
    else rest
  (splitOnChar '?' rest2).headD []

/-- The `path` component of `urllib.parse.urlsplit`. -/
def urlsplitPath (s : String) : String :=
  String.mk (urlsplitPathList s.data)

/-- A word character of the regex class `[A-Za-z0-9_]`. -/
def pyWordChar (c : Char) : Bool :=
  c.isAlpha || c.isDigit || c == '_'

/-- `extract_handle` from fetch_icons.py: empty input yields "", an
`@handle` is stripped of the `@`, an `http` URL yields its first path
segment (with any query artifact split off), and any other token is
reduced to its `[A-Za-z0-9_]` characters by `re.sub`. -/
def extract_handle (x_url : String) : String :=
  if x_url == "" then ""
  else
    let s := pyStrip x_url
    if pyStartswith s "@" then String.mk s.data.tail
    else if pyStartswith s "http" then
      let path := urlsplitPath s
      if path == "" then ""
      else
        let h1 := (splitOnChar '/' (stripCharList '/' path.data)).headD []
        String.mk ((splitOnChar '?' h1).headD [])
    else String.mk (s.data.filter pyWordChar)

/-- `extract_x_handle` nested in `write_html` of export_public.py: like
`extract_handle` but with no empty-path shortcut and a fallback that
returns the stripped token unchanged. -/
def extract_x_handle (x_url : String) : String :=
  if x_url == "" then ""
  else
    let s := pyStrip x_url
    if pyStartswith s "@" then String.mk s.data.tail
    else if pyStartswith s "http" then
      let h1 := (splitOnChar '/' (stripCharList '/' (urlsplitPath s).data)).headD []
      String.mk ((splitOnChar '?' h1).headD [])
    else s

/-- A character the regex `instagram\.com/([^/?#]+)` may capture. -/
def igCapChar (c : Char) : Bool :=
  !(c == '/' || c == '?' || c == '#')

/-- Leftmost match of `re.search(r"instagram\.com/([^/?#]+)", _)`: the
captured group, when the literal occurs followed by at least one
capturable character. -/
def igSearchList : List Char → Option (List Char)
  | [] => none
  | c :: cs =>
    if "instagram.com/".data.isPrefixOf (c :: cs) then
      let cap := ((c :: cs).drop "instagram.com/".data.length).takeWhile igCapChar
      if cap.isEmpty then igSearchList cs else some cap
    else igSearchList cs

/-- `extract_instagram_handle` from fetch_icons.py. -/
def extract_instagram_handle (url : String) : String :=
  if url == "" then ""
  else
    match igSearchList url.data with
    | some cap => String.mk cap
    | none => ""

/-- `extract_instagram_handle_from_links` nested in `write_html` of
export_public.py: the same search over the links field. -/
def extract_instagram_handle_from_links (links : String) : String :=
  extract_instagram_handle links

/-- A character the regex `youtube\.com/@([A-Za-z0-9_\-\.]+)` may
capture. -/
def ytCapChar (c : Char) : Bool :=
  c.isAlpha || c.isDigit || c == '_' || c == '-' || c == '.'

/-- Leftmost match of `re.search(r"youtube\.com/@([A-Za-z0-9_\-\.]+)", _)`. -/
def ytSearchList : List Char → Option (List Char)
  | [] => none
  | c :: cs =>
    if "youtube.com/@".data.isPrefixOf (c :: cs) then
      let cap := ((c :: cs).drop "youtube.com/@".data.length).takeWhile ytCapChar
      if cap.isEmpty then ytSearchList cs else some cap
    else ytSearchList cs

/-- `extract_youtube_handle` from fetch_icons.py. -/
def extract_youtube_handle (url : String) : String :=
  if url == "" then ""
  else
    match ytSearchList url.data with
    | some cap => String.mk cap
    | none => ""

/-- The deny-list `bottom_names` in `write_html` of export_public.py. -/
def bottomNames : List String := ["イケハヤ", "むなかた総理", "RYUTA"]

/-- Whether a row's display name is on the deny-list, as tested by the
sort key of `write_html`. -/
def isBottom (r : Row) : Bool :=
  bottomNames.contains (rowGetD r "ハンドルネーム")

/-- `has_icon_row` nested in `write_html`: an explicit icon value, an X
handle or an Instagram handle makes the row's icon identity derivable. -/
def has_icon_row (r : Row) : Bool :=
  let icon_spec := pyStrip (rowGetD r "アイコンURL")
  let xh := extract_x_handle (rowGetD r "XアカウントURL")
  let ig := extract_instagram_handle_from_links (rowGetD r "SNSリンク")
  !(icon_spec == "") || !(xh == "") || !(ig == "")

/-- The sort key of `indexed.sort(key=...)` in `write_html`: deny-list
bit, missing-icon bit, original index. -/
def sortKey (it : Nat × Row) : Nat × Nat × Nat :=
  (if isBottom it.2 then 1 else 0,
   if has_icon_row it.2 then 0 else 1,
   it.1)

/-- Lexicographic comparison of two sort keys. -/
def keyLe (a b : Nat × Row) : Bool :=
  let x := sortKey a
  let y := sortKey b
  decide (x.1 < y.1 ∨ (x.1 = y.1 ∧
    (x.2.1 < y.2.1 ∨ (x.2.1 = y.2.1 ∧ x.2.2 ≤ y.2.2))))

/-- The card order `write_html` renders: Python's stable sort of the
enumerated rows by the composite key (a total order, since the key ends
in the original index). -/
def galleryOrder (rows : List Row) : List (Nat × Row) :=
  rows.enum.mergeSort keyLe

/-- Filesystem oracle for `ensure_docs_icons`: for a local source path,
the copied file's mtime when the copy succeeds, `none` when the source
file is missing (`FileNotFoundError`). -/
abbrev FsOracle := String → Option Nat

/-- `os.path.basename`. -/
def pyBasename (p : String) : String :=
  String.mk ((splitOnChar '/' p.data).reverse.headD [])

/-- `ensure_docs_icons` from export_public.py: remote URLs pass through,
the empty path yields "", a local path is copied into the docs asset
directory and referenced with a mtime cache buster, and a missing local
file yields "". -/
def ensure_docs_icons (fs : FsOracle) (icon_path : String) : String :=
  if pyStartswith icon_path "http://" || pyStartswith icon_path "https://" then
    icon_path
  else if icon_path == "" then ""
  else
    match fs icon_path with
    | none => ""
    | some mtime =>
      "assets/icons/" ++ pyBasename icon_path ++ "?v=" ++ toString mtime

/-- The X handle `write_html` derives for a row. -/
def rowXHandle (r : Row) : String :=
  extract_x_handle (rowGetD r "XアカウントURL")

/-- The Instagram handle `write_html` derives for a row. -/
def rowIgHandle (r : Row) : String :=
  extract_instagram_handle_from_links (rowGetD r "SNSリンク")

/-- The `icon_src` candidate of `write_html`: the explicit icon column,
else the locally cached icon for the X handle, else the locally cached
icon for the Instagram handle. -/
def rowIconSrc (fs : FsOracle) (r : Row) : String :=
  let i0 := ensure_docs_icons fs (pyStrip (rowGetD r "アイコンURL"))
  let i1 :=
    if i0 == "" && !(rowXHandle r == "") then
      ensure_docs_icons fs ("assets/icons/" ++ rowXHandle r ++ ".jpg")
    else i0
  if i1 == "" && !(rowIgHandle r == "") then
    ensure_docs_icons fs ("assets/icons/" ++ rowIgHandle r ++ ".jpg")
  else i1

/-- The `unavatar` candidate of `write_html`. -/
def rowUnavatar (r : Row) : String :=
  if !(rowXHandle r == "") then "https://unavatar.io/x/" ++ rowXHandle r
  else if !(rowIgHandle r == "") then
    "https://unavatar.io/instagram/" ++ rowIgHandle r
  else ""

/-- The `x_live` candidate of `write_html`. -/
def rowXLive (r : Row) : String :=
  if !(rowXHandle r == "") then
    "https://x.com/" ++ rowXHandle r ++ "/profile_image?size=original"
  else ""

/-- One fragment of the `onerror` handler `write_html` builds for the
avatar element: swap to the second source when no retry step was taken
yet, swap to the third when the first retry failed, or disable the
handler. -/
inductive OnErrPart where
  | step1 (src : String)
  | step2 (src : String)
  | disable
deriving Repr, DecidableEq

/-- The avatar element of one card: the `sources` fallback-chain block
of `write_html`.  `none` when no candidate source exists (no `img` is
emitted); otherwise the initial `src` and the ordered `onerror`
fragments. -/
def buildImgTag (icon_src unavatar x_live : String) :
    Option (String × List OnErrPart) :=
  let sources := [icon_src, unavatar, x_live].filter (fun s => !(s == ""))
  match sources with
  | [] => none
  | src0 :: rest =>
    let src1 := rest.headD ""
    let src2 := (rest.drop 1).headD ""
    let parts :=
      (if !(src1 == "") then [OnErrPart.step1 src1] else []) ++
      (if !(src2 == "") then [OnErrPart.step2 src2] else []) ++
      [OnErrPart.disable]
    some (src0, parts)

/-- The avatar element `write_html` renders for a row. -/
def rowImgTag (fs : FsOracle) (r : Row) : Option (String × List OnErrPart) :=
  buildImgTag (rowIconSrc fs r) (rowUnavatar r) (rowXLive r)

/-- The image sources named by a list of `onerror` fragments, in order. -/
def fallbackSrcs : List OnErrPart → List String
  | [] => []
  | OnErrPart.step1 s :: t => s :: fallbackSrcs t
  | OnErrPart.step2 s :: t => s :: fallbackSrcs t
  | OnErrPart.disable :: t => fallbackSrcs t

/-- Network oracle for fetch_icons.py: a URL's response as
(Content-Type header, body bytes), or `none` when the request raises
(timeout, connection error). -/
abbrev Net := String → Option (String × List Nat)

/-- Result of `download_first`: whether a candidate succeeded, how many
requests were made, and the body persisted to the cache path (if any). -/
structure DLResult where
  ok : Bool
  reqs : Nat
  written : Option (List Nat)
deriving Repr, DecidableEq

/-- `download_first` from fetch_icons.py: try the candidate URLs in
order; a raised request, an empty body or a non-`image/` content type
is skipped; the first good response's body is written and `True`
returned; if all candidates fail, nothing is written and `False`
returned. -/
def download_first (net : Net) : List String → DLResult
  | [] => ⟨false, 0, none⟩
  | url :: rest =>
    match net url with
    | none =>
      let r := download_first net rest
      ⟨r.ok, r.reqs + 1, r.written⟩
    | some (ctype, data) =>
      if data.isEmpty || !(pyStartswith ctype "image/") then
        let r := download_first net rest
        ⟨r.ok, r.reqs + 1, r.written⟩
      else ⟨true, 1, some data⟩

/-- The candidate URLs of `fetch_x_icon`. -/
def fetch_x_icon_candidates (handle : String) : List String :=
  ["https://unavatar.io/x/" ++ handle,
   "https://unavatar.io/twitter/" ++ handle,
   "https://unavatar.io/https://twitter.com/" ++ handle,
   "https://twitter.com/" ++ handle ++ "/profile_image?size=original"]

/-- The candidate URLs of `fetch_instagram_icon`. -/
def fetch_instagram_icon_candidates (handle : String) : List String :=
  ["https://unavatar.io/instagram/" ++ handle,
   "https://unavatar.io/https://instagram.com/" ++ handle]

/-- The candidate URLs of `fetch_youtube_icon`. -/
def fetch_youtube_icon_candidates (handle : String) : List String :=
  ["https://unavatar.io/youtube/" ++ handle,
   "https://unavatar.io/youtube/@" ++ handle,
   "https://unavatar.io/https://www.youtube.com/@" ++ handle]

/-- The cache path `os.path.join(OUT_DIR, f"{handle}.jpg")`. -/
def iconPath (handle : String) : String :=
  OUT_DIR ++ "/" ++ handle ++ ".jpg"

/-- State threaded through the fetch_icons.py main loop: the set of
existing cache files, the number of network requests made, and the
`ok`/`ng` summary counters. -/
structure FetchState where
  cache : List String
  reqs : Nat
  ok : Nat
  ng : Nat
deriving Repr, DecidableEq

/-- The X handle the fetcher derives for a row:
`extract_handle((row.get("XアカウントURL") or "").strip())`. -/
def rowXh (r : Row) : String :=
  extract_handle (pyStrip (rowGetD r "XアカウントURL"))

/-- The links field the fetcher consults when the X handle is empty:
`(row.get("SNSリンク") or "").strip()`. -/
def rowSns (r : Row) : String :=
  pyStrip (rowGetD r "SNSリンク")

/-- The per-handle block every platform branch of the fetcher's loop
shares: a cache hit at `iconPath handle` (without `--force`) counts
`ok` without fetching; otherwise the platform's candidate list is
tried, a success writes the cache file and counts `ok`, a failure
counts nothing.  The boolean is the `fetched` flag the loop threads on
(false on the cache-hit path, which does not set it). -/
def handleStage (net : Net) (force : Bool) (st : FetchState)
    (handle : String) (cands : List String) : FetchState × Bool :=
  let out := iconPath handle
  if st.cache.contains out && !force then
    ({ st with ok := st.ok + 1 }, false)
  else
    let d := download_first net cands
    if d.ok then
      ({ st with
          cache := out :: st.cache,
          reqs := st.reqs + d.reqs,
          ok := st.ok + 1 }, true)
    else ({ st with reqs := st.reqs + d.reqs }, false)

/-- The Instagram/YouTube stages of the fetcher's loop body, entered
when no X handle is derivable, followed by the final
`if not fetched and not out_path` failed-count check.  The second
boolean threaded through mirrors whether `out_path` was set. -/
def processRowElse (net : Net) (force : Bool) (st : FetchState)
    (sns : String) : FetchState :=
  let ig := extract_instagram_handle sns
  let igStage : FetchState × Bool × Bool :=
    if !(ig == "") then
      let p := handleStage net force st ig (fetch_instagram_icon_candidates ig)
      (p.1, p.2, true)
    else (st, false, false)
  let st1 := igStage.1
  let fetched1 := igStage.2.1
  let outSet1 := igStage.2.2
  let ytStage : FetchState × Bool × Bool :=
    if !fetched1 then
      let yt := extract_youtube_handle sns
      if !(yt == "") then
        let q := handleStage net force st1 yt (fetch_youtube_icon_candidates yt)
        (q.1, q.2, true)
      else (st1, fetched1, outSet1)
    else (st1, fetched1, outSet1)
  let st2 := ytStage.1
  let fetched2 := ytStage.2.1
  let outSet2 := ytStage.2.2
  if !fetched2 && !outSet2 then { st2 with ng := st2.ng + 1 } else st2

/-- One iteration of the fetcher's main loop.  With an X handle the X
block runs (its cache-hit path is the loop's `continue`, so the
failed-count check is never reached with `out_path` set); without one,
the Instagram/YouTube stages run. -/
def processRow (net : Net) (force : Bool) (st : FetchState) (r : Row) :
    FetchState :=
  let xh := rowXh r
  if !(xh == "") then
    (handleStage net force st xh (fetch_x_icon_candidates xh)).1
  else processRowElse net force st (rowSns r)

/-- The fetcher's whole loop from an initial cache state. -/
def runFetcher (net : Net) (force : Bool) (st : FetchState)
    (rows : List Row) : FetchState :=
  rows.foldl (processRow net force) st

/-- `main` of fetch_icons.py: abort with a message when the input file
is missing; the header is read but never validated; otherwise run the
loop over all rows. -/
def fetchIconsMain (inputExists : Bool) (header : List String)
    (cache0 : List String) (rows : List Row) (force : Bool) (net : Net) :
    Except String FetchState :=
  if !inputExists then Except.error ("CSV not found: " ++ CSV_PATH)
  else Except.ok (runFetcher net force ⟨cache0, 0, 0, 0⟩ rows)

/-- A row with no derivable identity on any platform: no X handle, no
Instagram handle and no YouTube handle. -/
def noIdentity (r : Row) : Bool :=
  rowXh r == "" && extract_instagram_handle (rowSns r) == "" &&
    extract_youtube_handle (rowSns r) == ""

/-- An all-failing network: every request raises. -/
def netNone : Net := fun _ => none

/-- A roster row whose X column holds the raw handle `@alice`. -/
def rowAlice : Row := [("XアカウントURL", "@alice")]

/-- The cache files a run of the fetcher would consult for a row: the X
cache file when an X handle is derivable; otherwise the Instagram cache
file when an Instagram handle is derivable, and also the YouTube cache
file when a YouTube handle is derivable. -/
def cacheCovers (cache : List String) (r : Row) : Prop :=
  if rowXh r = "" then
    (extract_instagram_handle (rowSns r) ≠ "" →
      iconPath (extract_instagram_handle (rowSns r)) ∈ cache) ∧
    (extract_youtube_handle (rowSns r) ≠ "" →
      iconPath (extract_youtube_handle (rowSns r)) ∈ cache)
  else iconPath (rowXh r) ∈ cache

/-- Demo roster for the gallery ordering: a row with no icon identity,
a deny-listed row that has one, and a plain row with an X handle. -/
def demoRows : List Row :=
  [[("ハンドルネーム", "A")],
   [("ハンドルネーム", "RYUTA"), ("アイコンURL", "x.jpg")],
   [("ハンドルネーム", "B"), ("XアカウントURL", "@b")]]

/-- A candidate URL whose response `download_first` accepts: the request
does not raise, the body is non-empty and the content type starts with
`image/`. -/
def goodResp (net : Net) (url : String) : Bool :=
  match net url with
  | none => false
  | some (ctype, data) => !data.isEmpty && pyStartswith ctype "image/"

/-- C1: the publish filter accepts a row exactly when the publish-flag
value, stripped and lowercased, is one of the fixed accepted tokens
(true, 1, yes, y, 公開 — which the spec glosses as "public" — and ok);
it rejects "false", the empty string, a missing (None) value, and each
accepted token is itself accepted. -/
theorem truthy_iff_token :
    (∀ s : String, truthy (some s) = true ↔
      pyLower (pyStrip s) ∈ ["true", "1", "yes", "y", "公開", "ok"]) ∧
    truthy (some "false") = false ∧
    truthy (some "") = false ∧
    truthy none = false ∧
    (∀ t ∈ acceptedTokens, truthy (some t) = true) := by
  refine ⟨fun s => ?_, by decide, by decide, rfl, by decide⟩
  simp [truthy, acceptedTokens]

/-- C2: on a successful run, the emitted CSV has exactly one data row
per roster row accepted by the publish filter, the selected rows are a
sublist of the roster (original order), and the column order is the
source header order. -/
theorem export_csv_shape (fieldnames : List String) (allRows : List Row)
    (hcol : fieldnames.contains flagCol = true) :
    ∃ out, exportMain true fieldnames allRows = Except.ok out ∧
      out.csv.header = fieldnames ∧
      out.csv.rows.length = allRows.countP pubFilter ∧
      out.csv.rows = (allRows.filter pubFilter).map
        (fun r => fieldnames.map (csvCell r)) ∧
      (allRows.filter pubFilter).Sublist allRows := by
  refine ⟨⟨write_csv (allRows.filter pubFilter) fieldnames,
           write_md (allRows.filter pubFilter) fieldnames,
           allRows.filter pubFilter⟩, ?_, rfl, ?_, rfl,
         List.filter_sublist _⟩
  · have h : flagCol ∈ fieldnames := by simpa using hcol
    simp [exportMain, h]
  · simp [write_csv, List.countP_eq_length_filter]

/-- C2 witness: a two-row roster with flags "true" and "no". -/
theorem export_csv_shape_witness :
    ∃ out, exportMain true ["公開可否"]
        [[("公開可否", "true")], [("公開可否", "no")]] = Except.ok out ∧
      out.csv.header = ["公開可否"] ∧
      out.csv.rows.length =
        ([[("公開可否", "true")], [("公開可否", "no")]] : List Row).countP
          pubFilter ∧
      out.csv.rows =
        (([[("公開可否", "true")], [("公開可否", "no")]] : List Row).filter
          pubFilter).map (fun r => ["公開可否"].map (csvCell r)) ∧
      (([[("公開可否", "true")], [("公開可否", "no")]] : List Row).filter
        pubFilter).Sublist [[("公開可否", "true")], [("公開可否", "no")]] :=
  export_csv_shape ["公開可否"] [[("公開可否", "true")], [("公開可否", "no")]]
    (by decide)

/-- C3: the Markdown table never includes the publish-flag column, and
no cell of any emitted row contains a newline, every newline having been
replaced by a space. -/
theorem md_no_flag_no_newline (rows : List Row) (fieldnames : List String) :
    flagCol ∉ (write_md rows fieldnames).header ∧
    ∀ line ∈ (write_md rows fieldnames).rows, ∀ cell ∈ line,
      '\n' ∉ cell.data := by
  constructor
  · simp [write_md]
  · intro line hline cell hcell
    simp only [write_md, List.mem_map] at hline
    obtain ⟨r, _, rfl⟩ := hline
    simp only [List.mem_map] at hcell
    obtain ⟨k, _, rfl⟩ := hcell
    simp only [replaceNlSpace]
    intro hmem
    simp only [List.mem_map] at hmem
    obtain ⟨c, _, heq⟩ := hmem
    by_cases h2 : c = '\n' <;> simp [h2] at heq

/-- C3 witness: one published row whose description holds a newline. -/
theorem md_no_flag_no_newline_witness :
    flagCol ∉ (write_md [[("ひとこと", "a\nb")]] ["公開可否", "ひとこと"]).header ∧
    '\n' ∉ (replaceNlSpace "a\nb").data :=
  ⟨(md_no_flag_no_newline [[("ひとこと", "a\nb")]] ["公開可否", "ひとこと"]).1,
   (md_no_flag_no_newline [[("ひとこと", "a\nb")]] ["公開可否", "ひとこと"]).2
     [replaceNlSpace "a\nb"] (by decide) (replaceNlSpace "a\nb") (by decide)⟩

/-- C4: handle extraction maps "@foo" to "foo", the two x.com URL forms
to "foo", the empty string to ""; and on the bare-token fallback path
(non-empty input, stripped token starting with neither "@" nor "http")
the result keeps exactly the `[A-Za-z0-9_]` characters, so an
alphanumeric/underscore token passes through unchanged. -/
theorem extract_handle_spec :
    extract_handle "@foo" = "foo" ∧
    extract_handle "https://x.com/foo/status/123" = "foo" ∧
    extract_handle "https://x.com/foo?s=21" = "foo" ∧
    extract_handle "" = "" ∧
    (∀ s : String, s ≠ "" → pyStartswith (pyStrip s) "@" = false →
      pyStartswith (pyStrip s) "http" = false →
      extract_handle s = String.mk ((pyStrip s).data.filter pyWordChar)) := by
  refine ⟨by decide, by decide, by decide, rfl, fun s h1 h2 h3 => ?_⟩
  have h0 : (s == "") = false := by simpa using h1
  simp [extract_handle, h0, h2, h3]

/-- C4 witness: the fallback path strips punctuation from a bare
token. -/
theorem extract_handle_spec_witness :
    extract_handle "fo-o." = String.mk ((pyStrip "fo-o.").data.filter pyWordChar) :=
  extract_handle_spec.2.2.2.2 "fo-o." (by decide) (by decide) (by decide)

/-- The gallery sort key comparison is transitive. -/
theorem keyLe_trans : ∀ a b c : Nat × Row,
    keyLe a b → keyLe b c → keyLe a c := by
  intro a b c hab hbc
  simp only [keyLe, decide_eq_true_eq] at hab hbc ⊢
  omega

/-- The gallery sort key comparison is total. -/
theorem keyLe_total : ∀ a b : Nat × Row, keyLe a b || keyLe b a := by
  intro a b
  simp only [keyLe, Bool.or_eq_true, decide_eq_true_eq]
  omega

/-- C5: the rendered card order is a permutation of the enumerated
published rows in which, for any card placed before another: a
deny-listed name before something forces the other to be deny-listed
too (deny-listed rows sink to the end); among non-deny-listed rows a
row without icon identity is never before one with an identity; and
rows tying on both criteria keep their original input order. -/
theorem gallery_order_spec (rows : List Row) :
    List.Perm (galleryOrder rows) rows.enum ∧
    (galleryOrder rows).Pairwise (fun a b =>
      (isBottom a.2 = true → isBottom b.2 = true) ∧
      (isBottom a.2 = false → isBottom b.2 = false →
        has_icon_row a.2 = false → has_icon_row b.2 = false) ∧
      (isBottom a.2 = isBottom b.2 → has_icon_row a.2 = has_icon_row b.2 →
        a.1 ≤ b.1)) := by
  constructor
  · exact List.mergeSort_perm _ _
  · have hs := List.sorted_mergeSort keyLe_trans keyLe_total rows.enum
    refine hs.imp ?_
    intro a b h
    simp only [keyLe, sortKey, decide_eq_true_eq] at h
    cases hba : isBottom a.2 <;> cases hbb : isBottom b.2 <;>
      cases hia : has_icon_row a.2 <;> cases hib : has_icon_row b.2 <;>
      simp [hba, hbb, hia, hib] at h ⊢ <;> omega

/-- C5 witness: the three-row scenario of the spec. -/
theorem gallery_order_spec_witness :
    List.Perm (galleryOrder demoRows) demoRows.enum ∧
    (galleryOrder demoRows).Pairwise (fun a b =>
      (isBottom a.2 = true → isBottom b.2 = true) ∧
      (isBottom a.2 = false → isBottom b.2 = false →
        has_icon_row a.2 = false → has_icon_row b.2 = false) ∧
      (isBottom a.2 = isBottom b.2 → has_icon_row a.2 = has_icon_row b.2 →
        a.1 ≤ b.1)) :=
  gallery_order_spec demoRows

/-- The avatar fallback-chain block of `write_html` over arbitrary
candidate strings: no sources means no image element; otherwise the
initial src and the onerror fragments name the non-empty candidates in
order, at most three, with the handler-disabling fragment last. -/
theorem buildImgTag_spec (a b c : String) :
    (buildImgTag a b c = none ↔
      ([a, b, c].filter (fun s => !(s == ""))) = []) ∧
    (∀ s0 parts, buildImgTag a b c = some (s0, parts) →
      s0 :: fallbackSrcs parts = [a, b, c].filter (fun s => !(s == "")) ∧
      (s0 :: fallbackSrcs parts).length ≤ 3 ∧
      parts.getLast? = some OnErrPart.disable) := by
  cases ha : a == "" <;> cases hb : b == "" <;> cases hc : c == "" <;>
    refine ⟨by simp [buildImgTag, List.filter, ha, hb, hc], ?_⟩ <;>
    · intro s0 parts h
      simp [buildImgTag, ha, hb, hc] at h
      try (obtain ⟨rfl, rfl⟩ := h; simp [fallbackSrcs, ha, hb, hc])

/-- C6: for every published row, the card's image element is omitted
exactly when the row has no candidate source; otherwise the initial
src together with the onerror fallback sources enumerate the row's
non-empty candidates in order (at most three), and the last onerror
fragment disables the handler. -/
theorem row_img_tag_spec (fs : FsOracle) (r : Row) :
    (rowImgTag fs r = none ↔
      ([rowIconSrc fs r, rowUnavatar r, rowXLive r].filter
        (fun s => !(s == ""))) = []) ∧
    (∀ s0 parts, rowImgTag fs r = some (s0, parts) →
      s0 :: fallbackSrcs parts =
        [rowIconSrc fs r, rowUnavatar r, rowXLive r].filter
          (fun s => !(s == "")) ∧
      (s0 :: fallbackSrcs parts).length ≤ 3 ∧
      parts.getLast? = some OnErrPart.disable) :=
  buildImgTag_spec _ _ _

/-- C6 witness: a row with only an X handle gets the unavatar mirror as
src and the live profile image as single fallback. -/
theorem row_img_tag_spec_witness :
    "https://unavatar.io/x/alice" ::
        fallbackSrcs
          [OnErrPart.step1 "https://x.com/alice/profile_image?size=original",
           OnErrPart.disable] =
      [rowIconSrc (fun _ => none) rowAlice, rowUnavatar rowAlice,
        rowXLive rowAlice].filter (fun s => !(s == "")) ∧
    ("https://unavatar.io/x/alice" ::
        fallbackSrcs
          [OnErrPart.step1 "https://x.com/alice/profile_image?size=original",
           OnErrPart.disable]).length ≤ 3 ∧
    ([OnErrPart.step1 "https://x.com/alice/profile_image?size=original",
      OnErrPart.disable] : List OnErrPart).getLast? =
      some OnErrPart.disable :=
  (row_img_tag_spec (fun _ => none) rowAlice).2
    "https://unavatar.io/x/alice"
    [OnErrPart.step1 "https://x.com/alice/profile_image?size=original",
     OnErrPart.disable] (by decide)

/-- C9: `download_first` succeeds exactly when some candidate yields a
good response (non-raising, non-empty body, `image/` content type); it
persists exactly the body of the first good candidate, found scanning
strictly in order past every bad candidate; one request is made per
candidate up to and including the first good one; and when every
candidate fails nothing is written and it returns false. -/
theorem download_first_spec (net : Net) (cands : List String) :
    (download_first net cands).ok = cands.any (goodResp net) ∧
    (download_first net cands).written =
      (cands.find? (goodResp net)).bind (fun u => (net u).map Prod.snd) ∧
    (download_first net cands).reqs =
      (cands.takeWhile (fun u => !goodResp net u)).length +
        (if cands.any (goodResp net) then 1 else 0) := by
  induction cands with
  | nil => simp [download_first]
  | cons u rest ih =>
    obtain ⟨ih1, ih2, ih3⟩ := ih
    cases hn : net u with
    | none =>
      have hg : goodResp net u = false := by simp [goodResp, hn]
      refine ⟨?_, ?_, ?_⟩ <;>
        simp [download_first, hn, hg, ih1, ih2, ih3, List.find?_cons,
          List.takeWhile_cons] <;> omega
    | some resp =>
      obtain ⟨ct, data⟩ := resp
      have hgen : goodResp net u =
          !(data.isEmpty || !(pyStartswith ct "image/")) := by
        simp [goodResp, hn, Bool.not_or, Bool.not_not]
      by_cases hd : (data.isEmpty || !(pyStartswith ct "image/")) = true
      · have hg : goodResp net u = false := by simp [hgen, hd]
        refine ⟨?_, ?_, ?_⟩ <;>
          simp [download_first, hn, hd, hg, ih1, ih2, ih3, List.find?_cons,
            List.takeWhile_cons] <;> omega
      · have hdf : (data.isEmpty || !(pyStartswith ct "image/")) = false := by
          revert hd
          cases data.isEmpty || !(pyStartswith ct "image/") <;> simp
        have hg : goodResp net u = true := by simp [hgen, hdf]
        refine ⟨?_, ?_, ?_⟩ <;>
          simp [download_first, hn, hdf, hg, List.find?_cons,
            List.takeWhile_cons]

/-- The per-handle block never changes the failed counter. -/
theorem handleStage_ng (net : Net) (force : Bool) (st : FetchState)
    (h : String) (cands : List String) :
    (handleStage net force st h cands).1.ng = st.ng := by
  simp only [handleStage]
  split
  · rfl
  · split <;> rfl

/-- On a cache hit without `--force`, the per-handle block only counts
`ok`: no request, no write, no `fetched` flag. -/
theorem handleStage_hit (net : Net) (st : FetchState) (h : String)
    (cands : List String) (hc : st.cache.contains (iconPath h) = true) :
    handleStage net false st h cands = ({ st with ok := st.ok + 1 }, false) := by
  simp only [handleStage]
  rw [hc]
  simp

/-- When both cache files the Instagram/YouTube stages could consult
exist, those stages leave cache and request count unchanged. -/
theorem processRowElse_covered (net : Net) (st : FetchState) (sns : String)
    (hig : extract_instagram_handle sns ≠ "" →
      iconPath (extract_instagram_handle sns) ∈ st.cache)
    (hyt : extract_youtube_handle sns ≠ "" →
      iconPath (extract_youtube_handle sns) ∈ st.cache) :
    (processRowElse net false st sns).cache = st.cache ∧
    (processRowElse net false st sns).reqs = st.reqs := by
  by_cases hg : extract_instagram_handle sns = ""
  · by_cases hy : extract_youtube_handle sns = ""
    · simp [processRowElse, hg, hy]
    · have hc : st.cache.contains (iconPath (extract_youtube_handle sns)) = true := by
        simpa using hyt hy
      simp [processRowElse, hg, hy, handleStage_hit net st _ _ hc]
  · have hc : st.cache.contains (iconPath (extract_instagram_handle sns)) = true := by
      simpa using hig hg
    have e1 := handleStage_hit net st (extract_instagram_handle sns)
      (fetch_instagram_icon_candidates (extract_instagram_handle sns)) hc
    by_cases hy : extract_youtube_handle sns = ""
    · simp [processRowElse, hg, hy, e1]
    · have hc2 : ({ st with ok := st.ok + 1 } : FetchState).cache.contains
          (iconPath (extract_youtube_handle sns)) = true := by
        simpa using hyt hy
      have e2 := handleStage_hit net { st with ok := st.ok + 1 }
        (extract_youtube_handle sns)
        (fetch_youtube_icon_candidates (extract_youtube_handle sns)) hc2
      simp [processRowElse, hg, hy, e1, e2]

/-- A loop iteration over a row all of whose consulted cache files
exist leaves cache and request count unchanged. -/
theorem processRow_covered (net : Net) (st : FetchState) (r : Row)
    (h : cacheCovers st.cache r) :
    (processRow net false st r).cache = st.cache ∧
    (processRow net false st r).reqs = st.reqs := by
  by_cases hx : rowXh r = ""
  · rw [cacheCovers, if_pos hx] at h
    simpa [processRow, hx] using
      processRowElse_covered net st (rowSns r) h.1 h.2
  · rw [cacheCovers, if_neg hx] at h
    have hc : st.cache.contains (iconPath (rowXh r)) = true := by simpa using h
    simp [processRow, hx, handleStage_hit net st _ _ hc]

/-- A whole run over rows all of whose consulted cache files exist
leaves cache and request count unchanged. -/
theorem runFetcher_covered (net : Net) (rows : List Row) : ∀ st : FetchState,
    (∀ r ∈ rows, cacheCovers st.cache r) →
    (runFetcher net false st rows).cache = st.cache ∧
    (runFetcher net false st rows).reqs = st.reqs := by
  induction rows with
  | nil => intro st _; exact ⟨rfl, rfl⟩
  | cons r rs ih =>
    intro st h
    have h0 := processRow_covered net st r (h r (List.mem_cons_self r rs))
    have hcov : ∀ x ∈ rs, cacheCovers (processRow net false st r).cache x := by
      intro x hx
      rw [h0.1]
      exact h x (List.mem_cons_of_mem r hx)
    have ih2 := ih (processRow net false st r) hcov
    have hstep : runFetcher net false st (r :: rs) =
        runFetcher net false (processRow net false st r) rs := rfl
    refine ⟨?_, ?_⟩
    · rw [hstep, ih2.1, h0.1]
    · rw [hstep, ih2.2, h0.2]

/-- C7 counterexample: with a network where every request raises, a
first run over one `@alice` row creates no cache file, so every file
the first run created exists when the second run starts — yet the
second run, without the force flag, still performs four network
requests (failed downloads leave no cache entry and are retried). -/
theorem fetcher_second_run_requests :
    (runFetcher netNone false ⟨[], 0, 0, 0⟩ [rowAlice]).cache = [] ∧
    (runFetcher netNone false
      ⟨(runFetcher netNone false ⟨[], 0, 0, 0⟩ [rowAlice]).cache, 0, 0, 0⟩
      [rowAlice]).reqs = 4 := by decide

/-- C7 (amended): a run of the fetcher without the force flag performs
zero network requests provided every cache file the run would consult
already exists — the X cache file for rows with an X handle, and for
the other rows the Instagram and the YouTube cache files whenever the
respective handle is derivable.  (In particular a second run after a
first run that cached every consulted file.) -/
theorem fetcher_cached_run_no_requests (net : Net) (rows : List Row)
    (cache : List String) (h : ∀ r ∈ rows, cacheCovers cache r) :
    (runFetcher net false ⟨cache, 0, 0, 0⟩ rows).reqs = 0 :=
  (runFetcher_covered net rows ⟨cache, 0, 0, 0⟩ h).2

/-- C7 witness: one `@alice` row with its cache file present. -/
theorem fetcher_cached_run_no_requests_witness :
    (runFetcher netNone false
      ⟨["assets/icons/alice.jpg"], 0, 0, 0⟩ [rowAlice]).reqs = 0 :=
  fetcher_cached_run_no_requests netNone [rowAlice] ["assets/icons/alice.jpg"]
    (by
      intro r hr
      rcases List.mem_singleton.mp hr with rfl
      rw [cacheCovers, if_neg (by decide : ¬rowXh rowAlice = "")]
      decide)

/-- C8 counterexample: the icon fetcher does not abort when the
publish-flag column is absent from the header — with the input present
and a header lacking the column, its main returns normally. -/
theorem fetch_icons_no_column_check :
    flagCol ∉ (["XアカウントURL"] : List String) ∧
    fetchIconsMain true ["XアカウントURL"] [] [] false netNone =
      Except.ok ⟨[], 0, 0, 0⟩ :=
  ⟨by decide, rfl⟩

/-- C8 (amended): export_public aborts exactly when the input file is
missing or the publish-flag column is absent, each with its message;
the icon fetcher aborts exactly when the input file is missing (it
never validates the header); nothing else aborts either run. -/
theorem entry_abort_conditions :
    (∀ (inputExists : Bool) (fieldnames : List String) (allRows : List Row),
      (exportMain inputExists fieldnames allRows).isOk =
        (inputExists && fieldnames.contains flagCol)) ∧
    (∀ (fieldnames : List String) (allRows : List Row),
      exportMain false fieldnames allRows =
        Except.error ("not found: " ++ IN_CSV)) ∧
    (∀ (fieldnames : List String) (allRows : List Row),
      fieldnames.contains flagCol = false →
      exportMain true fieldnames allRows =
        Except.error "CSVに 公開可否 列がありません") ∧
    (∀ (inputExists : Bool) (header cache0 : List String) (rows : List Row)
        (force : Bool) (net : Net),
      (fetchIconsMain inputExists header cache0 rows force net).isOk =
        inputExists) := by
  refine ⟨?_, ?_, ?_, ?_⟩
  · intro ie fns rows
    cases ie
    · simp [exportMain, Except.isOk, Except.toBool]
    · cases h : fns.contains flagCol
      · have h2 : flagCol ∉ fns := by simpa using h
        simp [exportMain, h, h2, Except.isOk, Except.toBool]
      · have h2 : flagCol ∈ fns := by simpa using h
        simp [exportMain, h, h2, Except.isOk, Except.toBool]
  · intro fns rows
    simp [exportMain]
  · intro fns rows h
    have h2 : flagCol ∉ fns := by simpa using h
    simp [exportMain, h2]
  · intro ie header cache0 rows force net
    cases ie <;> simp [fetchIconsMain, Except.isOk, Except.toBool]

/-- The Instagram/YouTube stages count one failure exactly when neither
handle is derivable. -/
theorem processRowElse_ng (net : Net) (force : Bool) (st : FetchState)
    (sns : String) :
    (processRowElse net force st sns).ng =
      st.ng + (if extract_instagram_handle sns == "" &&
        extract_youtube_handle sns == "" then 1 else 0) := by
  by_cases hg : extract_instagram_handle sns = ""
  · by_cases hy : extract_youtube_handle sns = ""
    · simp [processRowElse, hg, hy]
    · simp [processRowElse, hg, hy,
        handleStage_ng net force st (extract_youtube_handle sns)
          (fetch_youtube_icon_candidates (extract_youtube_handle sns))]
  · have hngp := handleStage_ng net force st (extract_instagram_handle sns)
      (fetch_instagram_icon_candidates (extract_instagram_handle sns))
    cases hp2 : (handleStage net force st (extract_instagram_handle sns)
        (fetch_instagram_icon_candidates (extract_instagram_handle sns))).2
    · by_cases hy : extract_youtube_handle sns = ""
      · simp [processRowElse, hg, hy, hp2, hngp]
      · have hngq := handleStage_ng net force
          ((handleStage net force st (extract_instagram_handle sns)
            (fetch_instagram_icon_candidates (extract_instagram_handle sns))).1)
          (extract_youtube_handle sns)
          (fetch_youtube_icon_candidates (extract_youtube_handle sns))
        simp [processRowElse, hg, hy, hp2, hngp, hngq]
    · simp [processRowElse, hg, hp2, hngp]

/-- One loop iteration counts one failure exactly when the row has no
derivable identity on any platform. -/
theorem processRow_ng (net : Net) (force : Bool) (st : FetchState) (r : Row) :
    (processRow net force st r).ng = st.ng + (if noIdentity r then 1 else 0) := by
  by_cases hx : rowXh r = ""
  · have h1 := processRowElse_ng net force st (rowSns r)
    simp [processRow, hx, noIdentity, h1]
  · have h1 := handleStage_ng net force st (rowXh r)
      (fetch_x_icon_candidates (rowXh r))
    simp [processRow, hx, noIdentity, h1]

/-- A whole run's failed counter grows by the number of rows with no
derivable identity. -/
theorem runFetcher_ng (net : Net) (force : Bool) (rows : List Row) :
    ∀ st : FetchState,
      (runFetcher net force st rows).ng = st.ng + rows.countP noIdentity := by
  induction rows with
  | nil => intro st; simp [runFetcher]
  | cons r rs ih =>
    intro st
    have hstep : runFetcher net force st (r :: rs) =
        runFetcher net force (processRow net force st r) rs := rfl
    rw [hstep, ih (processRow net force st r), processRow_ng]
    cases hni : noIdentity r <;> simp [List.countP_cons, hni] <;> omega

/-- C10: the final summary's failed counter counts exactly the rows
with no derivable identity on any platform; a row with a derivable X
handle whose every download attempt fails increments neither counter;
and on a one-row roster whose fetches all fail, success plus failed is
0, strictly less than the row count. -/
theorem fetcher_summary_counters :
    (∀ (net : Net) (force : Bool) (cache0 : List String) (rows : List Row),
      (runFetcher net force ⟨cache0, 0, 0, 0⟩ rows).ng =
        rows.countP noIdentity) ∧
    (∀ (net : Net) (st : FetchState) (r : Row), rowXh r ≠ "" →
      st.cache.contains (iconPath (rowXh r)) = false →
      (download_first net (fetch_x_icon_candidates (rowXh r))).ok = false →
      (processRow net false st r).ok = st.ok ∧
      (processRow net false st r).ng = st.ng) ∧
    ((runFetcher netNone false ⟨[], 0, 0, 0⟩ [rowAlice]).ok +
        (runFetcher netNone false ⟨[], 0, 0, 0⟩ [rowAlice]).ng = 0 ∧
      ([rowAlice] : List Row).length = 1) := by
  refine ⟨?_, ?_, by decide⟩
  · intro net force cache0 rows
    simpa using runFetcher_ng net force rows ⟨cache0, 0, 0, 0⟩
  · intro net st r hx hc hok
    have hc2 : iconPath (rowXh r) ∉ st.cache := by simpa using hc
    simp [processRow, hx, handleStage, hc2, hok]

/-- C10 witness: the all-failing network over the `@alice` row leaves
both counters at zero. -/
theorem fetcher_summary_counters_witness :
    (processRow netNone false ⟨[], 0, 0, 0⟩ rowAlice).ok =
      (⟨[], 0, 0, 0⟩ : FetchState).ok ∧
    (processRow netNone false ⟨[], 0, 0, 0⟩ rowAlice).ng =
      (⟨[], 0, 0, 0⟩ : FetchState).ng :=
  fetcher_summary_counters.2.1 netNone ⟨[], 0, 0, 0⟩ rowAlice (by decide)
    (by decide) (by decide)
